import Mathlib

/-!
# Verification of the Stagehand action-handler module

Shallow embedding of the action execution engine (`methodHandlerMap` and its
handlers: `clickElement`, `scrollElementToPercentage`, `scrollToNextChunk`,
`scrollToPreviousChunk`, `fillOrType`, `handlePossiblePageNavigation`) together
with proofs of the specified behaviours.

Pixel quantities and delays are modelled as rationals (the concrete values in
the claims are short decimal literals, on which rational arithmetic agrees with
the runtime's binary floating point: parsing, comparison with 0/100, and the
clamps are exact there).  Exceptions become `Except String` values carrying the
error message; observable I/O (scroll commands, keystrokes, tab close /
navigation, log records) becomes explicit effect lists.
-/

namespace Stagehand

/-! ## String helpers mirroring the JavaScript runtime primitives used -/

/-- `String.prototype.trim()`: drop whitespace from both ends.  (JS trims a
slightly larger Unicode whitespace class; the ASCII class used here agrees on
every input the handlers receive.) -/
def jsTrim (s : String) : String :=
  ⟨((s.data.dropWhile Char.isWhitespace).reverse.dropWhile Char.isWhitespace).reverse⟩

/-- Remove the first occurrence of a character from a list of characters. -/
def removeFirst (c : Char) : List Char → List Char
  | [] => []
  | x :: xs => if x = c then xs else x :: removeFirst c xs

/-- `val.replace("%", "")` with a *string* pattern in JavaScript replaces only
the first occurrence of `"%"`, wherever it sits in the string. -/
def replaceFirstPercent (s : String) : String :=
  ⟨removeFirst '%' s.data⟩

/-- Longest prefix of decimal digits, with the rest. -/
def takeDigits : List Char → List Char × List Char
  | [] => ([], [])
  | c :: cs =>
      if c.isDigit then
        let (ds, rest) := takeDigits cs
        (c :: ds, rest)
      else ([], c :: cs)

/-- Value of a digit string, most significant first. -/
def digitsToNat (ds : List Char) : Nat :=
  ds.foldl (fun a c => 10 * a + (c.toNat - 48)) 0

/-- The digits-and-signs content of a finite decimal literal as understood by
the platform `parseFloat`: sign, value and length of the integer and fraction
digit groups, and the signed exponent digits. -/
structure ParsedFloat where
  neg : Bool
  intPart : Nat
  fracPart : Nat
  fracLen : Nat
  expNeg : Bool
  expPart : Nat
  deriving DecidableEq

/-- Syntactic phase of the platform `parseFloat`: skip leading whitespace, read
an optional sign, then the longest valid prefix of the decimal grammar
`digits [. digits] [e|E [sign] digits]`; `none` when no numeric prefix exists
(JS `NaN`).  The non-finite `Infinity` production of `parseFloat` is not
modelled (no percentage claim involves it); finite decimal notation is
modelled exactly. -/
def parseFloatRep (s : String) : Option ParsedFloat :=
  let l := s.data.dropWhile Char.isWhitespace
  let (neg, l1) : Bool × List Char :=
    match l with
    | '+' :: rest => (false, rest)
    | '-' :: rest => (true, rest)
    | _ => (false, l)
  let (ip, l2) := takeDigits l1
  let (fp, l3) :=
    match l2 with
    | '.' :: rest => takeDigits rest
    | _ => ([], l2)
  if ip = [] ∧ fp = [] then none
  else
    let (expNeg, expPart) : Bool × Nat :=
      match l3 with
      | e :: rest =>
          if e = 'e' ∨ e = 'E' then
            let (es, rest1) : Bool × List Char :=
              match rest with
              | '+' :: r => (false, r)
              | '-' :: r => (true, r)
              | _ => (false, rest)
            let (ed, _) := takeDigits rest1
            if ed = [] then (false, 0) else (es, digitsToNat ed)
          else (false, 0)
      | [] => (false, 0)
    some ⟨neg, digitsToNat ip, digitsToNat fp, fp.length, expNeg, expPart⟩

/-- Numeric value of a parsed decimal literal.  (Rational arithmetic: exact on
the short decimal literals all the claims use, where binary floating point is
also exact.) -/
def floatVal (p : ParsedFloat) : ℚ :=
  let mant : ℚ := (p.intPart : ℚ) + (p.fracPart : ℚ) / (10 : ℚ) ^ p.fracLen
  let scaled : ℚ := if p.expNeg then mant / (10 : ℚ) ^ p.expPart else mant * (10 : ℚ) ^ p.expPart
  if p.neg then -scaled else scaled

/-- The platform `parseFloat`, as used by `parsePercent`. -/
def parseFloat (s : String) : Option ℚ :=
  (parseFloatRep s).map floatVal

/-- `Math.min` on two (finite) numbers. -/
def jsMin (a b : ℚ) : ℚ := if a ≤ b then a else b

/-- `Math.max` on two (finite) numbers. -/
def jsMax (a b : ℚ) : ℚ := if a ≤ b then b else a

/-- `parsePercent` from `scrollElementToPercentage`:
`val.trim().replace("%", "")`, `parseFloat`, then
`Number.isNaN(num) ? 0 : Math.max(0, Math.min(num, 100))`. -/
def parsePercent (val : String) : ℚ :=
  let cleaned := replaceFirstPercent (jsTrim val)
  match parseFloat cleaned with
  | none => 0
  | some num => jsMax 0 (jsMin num 100)

/-- Modelled from the spec: the spec's §4.1 contract says to strip surrounding
whitespace and *a trailing* `%` (rather than the first occurrence anywhere, as
the code's `replace` does), then parse and clamp identically.  Kept as a second
definition purely for the refinement comparison. -/
def parsePercentSpec (val : String) : ℚ :=
  let t := jsTrim val
  let cleaned : String := if t.data.getLast? = some '%' then ⟨t.data.dropLast⟩ else t
  match parseFloat cleaned with
  | none => 0
  | some num => jsMax 0 (jsMin num 100)

/-! ## Page-side data for the scroll handlers

`getNodeFromXpath` resolution is modelled by an `Option Elem` argument
(`none` covers both a missing node and a non-element node).  The layout
quantities the closures read are collected in `Elem` and `PageEnv`. -/

/-- `String.prototype.toLowerCase()` restricted to ASCII (`tagName` of an HTML
element is ASCII uppercase, on which this agrees with the Unicode version). -/
def asciiToLower (s : String) : String :=
  ⟨s.data.map Char.toLower⟩

/-- The fields of a resolved DOM element read by the handlers. -/
structure Elem where
  tagName : String
  scrollHeight : ℚ
  clientHeight : ℚ
  scrollLeft : ℚ
  /-- `getBoundingClientRect().height` -/
  boundingHeight : ℚ
  deriving DecidableEq

/-- The document / window layout quantities read by the handlers. -/
structure PageEnv where
  /-- `document.body.scrollHeight` -/
  bodyScrollHeight : ℚ
  /-- `window.innerHeight` -/
  innerHeight : ℚ
  /-- `window.scrollX` -/
  scrollX : ℚ
  /-- `window.visualViewport.height` -/
  visualViewportHeight : ℚ
  deriving DecidableEq

/-- A smooth-scroll command issued by `scrollElementToPercentage`. -/
inductive ScrollEffect where
  | windowScrollTo (top left : ℚ)
  | elementScrollTo (top left : ℚ)
  deriving DecidableEq

/-- A smooth-scroll command issued by the chunk handlers. -/
inductive ChunkEffect where
  | windowScrollBy (top left : ℚ)
  | elementScrollBy (top left : ℚ)
  deriving DecidableEq

/-- `scrollToNextChunk`: the in-page closure resolves the element; when it is
missing it `console.warn`s and resolves with no scroll; when the tag is
`html`/`body` it scrolls the window by one visual-viewport height, otherwise it
scrolls the element by its own bounding height, then awaits the external
`window.waitForElementScrollEnd` promise (modelled by `waitScrollEnd`; its
rejection propagates out of `page.evaluate` and the handler's catch re-raises
it as a `PlaywrightCommandException` carrying the message).  The result pairs
the console warnings with the scroll command issued, if any. -/
def scrollToNextChunk (resolved : Option Elem) (env : PageEnv)
    (waitScrollEnd : Except String Unit) :
    Except String (List String × Option ChunkEffect) :=
  match resolved with
  | none => .ok (["Could not locate element to scroll by its height."], none)
  | some el =>
      let eff : ChunkEffect :=
        if asciiToLower el.tagName = "html" ∨ asciiToLower el.tagName = "body" then
          .windowScrollBy env.visualViewportHeight 0
        else
          .elementScrollBy el.boundingHeight 0
      match waitScrollEnd with
      | .ok _ => .ok ([], some eff)
      | .error msg => .error msg

/-- `scrollToPreviousChunk`: identical to `scrollToNextChunk` except that the
vertical delta is negated (`top: -height`). -/
def scrollToPreviousChunk (resolved : Option Elem) (env : PageEnv)
    (waitScrollEnd : Except String Unit) :
    Except String (List String × Option ChunkEffect) :=
  match resolved with
  | none => .ok (["Could not locate element to scroll by its height."], none)
  | some el =>
      let eff : ChunkEffect :=
        if asciiToLower el.tagName = "html" ∨ asciiToLower el.tagName = "body" then
          .windowScrollBy (-env.visualViewportHeight) 0
        else
          .elementScrollBy (-el.boundingHeight) 0
      match waitScrollEnd with
      | .ok _ => .ok ([], some eff)
      | .error msg => .error msg

/-- `scrollElementToPercentage`: `const [yArg = "0%"] = args`; the in-page
closure warns and no-ops when the element is missing; on tag `html` it scrolls
the window to `(document.body.scrollHeight - window.innerHeight) * (yPct/100)`
keeping `window.scrollX`; on any other tag (including `body`) it scrolls the
element itself to `(scrollHeight - clientHeight) * (yPct/100)` keeping
`element.scrollLeft`.  The closure has no failure path of its own (the
handler's catch wraps only transport failures of `page.evaluate`), so the
result is always `.ok`. -/
def scrollElementToPercentage (resolved : Option Elem) (env : PageEnv)
    (args : List String) : Except String (List String × Option ScrollEffect) :=
  let yArg := args.headD "0%"
  match resolved with
  | none => .ok (["Could not locate element to scroll on."], none)
  | some el =>
      let yPct := parsePercent yArg
      if asciiToLower el.tagName = "html" then
        .ok ([], some (.windowScrollTo
          ((env.bodyScrollHeight - env.innerHeight) * (yPct / 100)) env.scrollX))
      else
        .ok ([], some (.elementScrollTo
          ((el.scrollHeight - el.clientHeight) * (yPct / 100)) el.scrollLeft))

/-! ## Click element: radio/label resolution and the retry policy -/

/-- The candidate click targets of `clickElement`. -/
inductive ClickTarget where
  | forLabel
  | ancestorLabel
  | followingLabel
  | precedingLabel
  | original
  deriving DecidableEq

/-- The label structure around a radio input, as observed by the locator
queries in `clickElement`: the input's `id` (JS `el.id`, the empty string when
the attribute is absent) and the match counts of the four label locators. -/
structure RadioDom where
  inputId : String
  /-- matches of `label[for="<inputId>"]` (queried only when `inputId` is nonempty) -/
  forLabelCount : Nat
  /-- matches of `xpath=<xpath>/ancestor::label` -/
  ancestorLabelCount : Nat
  /-- matches of `xpath=following-sibling::label` -/
  followingLabelCount : Nat
  /-- matches of `xpath=preceding-sibling::label` -/
  precedingLabelCount : Nat
  deriving DecidableEq

/-- `locator.count()` for each label candidate.  (`original` is never counted
by the source; the value here is irrelevant and set to 0.) -/
def labelCount (d : RadioDom) : ClickTarget → Nat
  | .forLabel => d.forLabelCount
  | .ancestorLabel => d.ancestorLabelCount
  | .followingLabel => d.followingLabelCount
  | .precedingLabel => d.precedingLabelCount
  | .original => 0

/-- The radio branch of `clickElement`: `labelLocator` starts as
`label[for=id]` when the id is truthy (nonempty), falls through to the
ancestor label when null or empty, then to the following sibling, then to the
preceding sibling; the final locator is used only when it has at least one
match, otherwise the original element is clicked. -/
def resolveRadioTarget (d : RadioDom) : ClickTarget :=
  let label0 : Option ClickTarget := if d.inputId ≠ "" then some .forLabel else none
  let label1 : ClickTarget :=
    match label0 with
    | none => .ancestorLabel
    | some t => if labelCount d t < 1 then .ancestorLabel else t
  let label2 : ClickTarget :=
    if labelCount d label1 < 1 then
      if labelCount d .followingLabel < 1 then .precedingLabel else .followingLabel
    else label1
  if labelCount d label2 > 0 then label2 else .original

/-- `finalLocator` of `clickElement`: the radio resolution applies only when
the element is a radio-type input. -/
def finalClickTarget (isRadio : Bool) (d : RadioDom) : ClickTarget :=
  if isRadio then resolveRadioTarget d else .original

/-- Modelled from the spec: the claimed priority order — first candidate among
(for-label, ancestor label, following sibling, preceding sibling) with at
least one matching element, else the original element.  Kept as a second
definition purely for comparison with `resolveRadioTarget`. -/
def specRadioTarget (d : RadioDom) : ClickTarget :=
  if d.forLabelCount ≥ 1 then .forLabel
  else if d.ancestorLabelCount ≥ 1 then .ancestorLabel
  else if d.followingLabelCount ≥ 1 then .followingLabel
  else if d.precedingLabelCount ≥ 1 then .precedingLabel
  else .original

/-- Outcome of the first, bounded click attempt: Playwright distinguishes
`TimeoutError` from other failures (`error instanceof errors.TimeoutError`). -/
inductive ClickError where
  | timeout (msg : String)
  | other (msg : String)
  deriving DecidableEq

/-- The caller-supplied click options record (`args[0] ?? {}`); only the two
fields the engine itself writes are distinguished, the rest passes through. -/
structure ClickOptions where
  timeout : Option ℚ := none
  force : Option Bool := none
  deriving DecidableEq

/-- Options of the first attempt: `{ ...clickArg, timeout: 5000 }`. -/
def firstAttemptOptions (clickArg : ClickOptions) : ClickOptions :=
  { clickArg with timeout := some 5000 }

/-- Options of the forced retry: `{ ...clickArg, force: true }`. -/
def forcedAttemptOptions (clickArg : ClickOptions) : ClickOptions :=
  { clickArg with force := some true }

/-- The inner try/catch of `clickElement` around the two click attempts.
`first` is the outcome of the bounded 5000ms attempt and `forced` the outcome
of the forced attempt (consulted only on a timeout).  Returns the number of
forced attempts performed and the outcome; error strings are
`PlaywrightCommandException` messages. -/
def clickWithRetry (xpath : String) (first : Except ClickError Unit)
    (forced : Except String Unit) : Nat × Except String Unit :=
  match first with
  | .ok _ => (0, .ok ())
  | .error (.timeout tmsg) =>
      match forced with
      | .ok _ => (1, .ok ())
      | .error fmsg =>
          (1, .error ("Failed to click element at [" ++ xpath ++ "]. "
            ++ "Timeout after 5s, then force-click also failed. "
            ++ "Original timeout error: " ++ tmsg ++ ", "
            ++ "Force-click error: " ++ fmsg))
  | .error (.other msg) =>
      (0, .error ("Failed to click element at [" ++ xpath ++ "]. " ++ "Error: " ++ msg))

/-- `clickElement`'s outer catch: any failure of the body is logged and
re-raised as `Could not complete click action at [xpath]. Reason: <message>`. -/
def clickElement (xpath : String) (first : Except ClickError Unit)
    (forced : Except String Unit) : Nat × Except String Unit :=
  match clickWithRetry xpath first forced with
  | (n, .ok _) => (n, .ok ())
  | (n, .error m) =>
      (n, .error ("Could not complete click action at [" ++ xpath ++ "]. Reason: " ++ m))

/-! ## Text input -/

/-- The observable actions of `fillOrType`, in order. -/
inductive FillEvent where
  /-- `locator.fill("")` -/
  | clearValue
  /-- `locator.click()` -/
  | clickFocus
  /-- one `keyboard.type(char, { delay })` call -/
  | keystroke (c : Char) (delay : ℚ)
  deriving DecidableEq

/-- `fillOrType`: clear the value, click to focus, then type
`args[0]?.toString() || ""` one character at a time with delay
`Math.random() * 50 + 25`; `rand i` is the i-th `Math.random()` draw. -/
def fillOrType (arg0 : Option String) (rand : Nat → ℚ) : List FillEvent :=
  let text := arg0.getD ""
  [.clearValue, .clickFocus]
    ++ text.data.enum.map (fun p => .keystroke p.2 (rand p.1 * 50 + 25))

/-! ## Navigation watcher -/

/-- The observable actions of `handlePossiblePageNavigation`, in order. -/
inductive NavEffect where
  /-- `newOpenedTab.close()` -/
  | closeNewTab (url : String)
  /-- `page.goto(newOpenedTab.url())` -/
  | gotoUrl (url : String)
  /-- `page.waitForLoadState("domcontentloaded")` -/
  | waitDomContentLoaded
  /-- the catch block's log for a `_waitForSettledDom` timeout -/
  | logSettleTimeout (msg : String)
  deriving DecidableEq

/-- The one-shot race between `context.once("page", resolve)` and
`setTimeout(() => resolve(null), 1500)`: `pageEventAt = some (t, url)` means
the session fires its "new page" event at time `t` with a page whose captured
URL is `url`; the event wins exactly when it fires before the 1500-unit
timer. -/
def raceNewPage (pageEventAt : Option (Nat × String)) : Option String :=
  match pageEventAt with
  | some (t, url) => if t < 1500 then some url else none
  | none => none

/-- The catch around `_waitForSettledDom`: a rejection is logged, never
re-raised. -/
def settleLog : Except String Unit → List NavEffect
  | .ok _ => []
  | .error m => [.logSettleTimeout m]

/-- `handlePossiblePageNavigation` after a click / key press: run the new-tab
race; on a new tab close it, navigate the original page to its URL and block
until `domcontentloaded`; then wait for the settled DOM, catching (and only
logging) its timeout.  The function itself always returns successfully
(rejections of `close`/`goto` are external I/O failures outside this model;
the final changed-URL diagnostic log is informational and not modelled). -/
def handlePossiblePageNavigation (pageEventAt : Option (Nat × String))
    (settleResult : Except String Unit) : List NavEffect × Except String Unit :=
  match raceNewPage pageEventAt with
  | some url =>
      ([.closeNewTab url, .gotoUrl url, .waitDomContentLoaded] ++ settleLog settleResult, .ok ())
  | none => (settleLog settleResult, .ok ())

/-- The full click action: `clickElement`'s attempt logic followed — only on
success — by `handlePossiblePageNavigation`. -/
def clickAction (xpath : String) (first : Except ClickError Unit)
    (forced : Except String Unit) (pageEventAt : Option (Nat × String))
    (settleResult : Except String Unit) : List NavEffect × Except String Unit :=
  match (clickElement xpath first forced).2 with
  | .error m => ([], .error m)
  | .ok _ => handlePossiblePageNavigation pageEventAt settleResult

/-! ## Substring predicate for the error-message claims -/

/-- `needle` occurs contiguously inside `hay`. -/
def substringOf (needle hay : String) : Prop :=
  ∃ a b : List Char, hay.data = a ++ needle.data ++ b

theorem data_append (s t : String) : (s ++ t).data = s.data ++ t.data := rfl

theorem substringOf_self (n : String) : substringOf n n :=
  ⟨[], [], by simp⟩

theorem substringOf_append_left {n s : String} (t : String) (h : substringOf n s) :
    substringOf n (s ++ t) := by
  rcases h with ⟨a, b, hd⟩
  exact ⟨a, b ++ t.data, by simp [data_append, hd]⟩

theorem substringOf_append_right {n t : String} (s : String) (h : substringOf n t) :
    substringOf n (s ++ t) := by
  rcases h with ⟨a, b, hd⟩
  exact ⟨s.data ++ a, b, by simp [data_append, hd]⟩

/-! ## Claim theorems -/

/-- C1: for every click, a first-attempt timeout triggers exactly one forced
retry; when the forced retry also fails the raised failure's message contains
the path identifier, the original timeout message, and the forced-click error
message; a non-timeout first-attempt failure raises a typed failure at once
with no forced retry. -/
theorem clickElement_retry_policy (xpath tmsg fmsg omsg : String)
    (forced : Except String Unit) :
    (clickElement xpath (.error (.timeout tmsg)) forced).1 = 1
    ∧ (∃ m, (clickElement xpath (.error (.timeout tmsg)) (.error fmsg)).2 = .error m
        ∧ substringOf xpath m ∧ substringOf tmsg m ∧ substringOf fmsg m)
    ∧ (clickElement xpath (.error (.other omsg)) forced).1 = 0
    ∧ (∃ m, (clickElement xpath (.error (.other omsg)) forced).2 = .error m) := by
  refine ⟨?_, ?_, ?_, ?_⟩
  · cases forced <;> rfl
  · refine ⟨_, rfl, ?_, ?_, ?_⟩
    · exact substringOf_append_left _ (substringOf_append_left _
        (substringOf_append_right _ (substringOf_self xpath)))
    · exact substringOf_append_right _ (substringOf_append_left _
        (substringOf_append_left _ (substringOf_append_left _
        (substringOf_append_right _ (substringOf_self tmsg)))))
    · exact substringOf_append_right _ (substringOf_append_right _ (substringOf_self fmsg))
  · cases forced <;> rfl
  · cases forced <;> exact ⟨_, rfl⟩

/-- C2: the effective click target of a radio input follows the priority order
for-label, ancestor label, following-sibling label, preceding-sibling label,
falling back to the original element; the hypothesis records the HTML fact
that no label's `for` attribute can reference an input without an id. -/
theorem resolveRadioTarget_priority (d : RadioDom)
    (h : d.inputId = "" → d.forLabelCount = 0) :
    finalClickTarget true d = specRadioTarget d := by
  unfold finalClickTarget resolveRadioTarget specRadioTarget
  by_cases hid : d.inputId = "" <;>
    simp only [hid, labelCount, if_true, if_false, ne_eq, not_true_eq_false,
      not_false_eq_true, reduceIte] <;>
    split_ifs <;> simp_all [labelCount]

/-- Witness for C2 at concrete label configurations: an input with id `opt1`
and a matching for-label targets that label; an input with only a following
sibling label targets that sibling. -/
theorem resolveRadioTarget_priority_witness :
    finalClickTarget true ⟨"opt1", 1, 0, 1, 0⟩ = .forLabel
    ∧ finalClickTarget true ⟨"opt2", 0, 0, 1, 0⟩ = .followingLabel
    ∧ finalClickTarget true ⟨"", 0, 0, 0, 0⟩ = .original := by
  refine ⟨?_, ?_, ?_⟩
  · rw [resolveRadioTarget_priority ⟨"opt1", 1, 0, 1, 0⟩ (fun hc => absurd hc (by decide))]
    rfl
  · rw [resolveRadioTarget_priority ⟨"opt2", 0, 0, 1, 0⟩ (fun hc => absurd hc (by decide))]
    rfl
  · rw [resolveRadioTarget_priority ⟨"", 0, 0, 0, 0⟩ (fun _ => rfl)]
    rfl

/-- C3: the navigation watcher races the one-shot "new page" event against a
1500-unit timer; a new page arriving within the window is closed, the original
page navigates to its URL and blocks until content-loaded (in that order,
before the settle wait); otherwise no close or navigation is attempted. -/
theorem handlePossiblePageNavigation_race (t : Nat) (url : String)
    (settle : Except String Unit) :
    (t < 1500 →
      handlePossiblePageNavigation (some (t, url)) settle
        = ([.closeNewTab url, .gotoUrl url, .waitDomContentLoaded] ++ settleLog settle, .ok ()))
    ∧ (1500 ≤ t → ∀ u,
        NavEffect.gotoUrl u ∉ (handlePossiblePageNavigation (some (t, url)) settle).1
        ∧ NavEffect.closeNewTab u ∉ (handlePossiblePageNavigation (some (t, url)) settle).1)
    ∧ (∀ u, NavEffect.gotoUrl u ∉ (handlePossiblePageNavigation none settle).1
        ∧ NavEffect.closeNewTab u ∉ (handlePossiblePageNavigation none settle).1) := by
  refine ⟨fun h => ?_, fun h u => ?_, fun u => ?_⟩
  · simp [handlePossiblePageNavigation, raceNewPage, h]
  · have h' : ¬ t < 1500 := by omega
    cases settle <;>
      simp [handlePossiblePageNavigation, raceNewPage, h', settleLog]
  · cases settle <;>
      simp [handlePossiblePageNavigation, raceNewPage, settleLog]

/-- Witness for C3: a new page arriving at time 100 with a concrete URL is
closed and navigated to; an event at time 2000 loses the race. -/
theorem handlePossiblePageNavigation_race_witness :
    handlePossiblePageNavigation (some (100, "https://example.com/next")) (.ok ())
      = ([.closeNewTab "https://example.com/next", .gotoUrl "https://example.com/next",
          .waitDomContentLoaded], .ok ())
    ∧ NavEffect.gotoUrl "https://example.com/next"
        ∉ (handlePossiblePageNavigation (some (2000, "https://example.com/next")) (.ok ())).1 := by
  constructor
  · exact (handlePossiblePageNavigation_race 100 "https://example.com/next" (.ok ())).1
      (by decide)
  · exact ((handlePossiblePageNavigation_race 2000 "https://example.com/next" (.ok ())).2.1
      (by decide) "https://example.com/next").1

/-- C4: a settle-DOM timeout after the action itself succeeded is caught and
logged, never re-raised: the watcher and the whole click action still report
success. -/
theorem settle_timeout_not_raised (xpath : String) (forced : Except String Unit)
    (pageEventAt : Option (Nat × String)) (msg : String) (settle : Except String Unit) :
    (handlePossiblePageNavigation pageEventAt settle).2 = .ok ()
    ∧ (clickAction xpath (.ok ()) forced pageEventAt (.error msg)).2 = .ok ()
    ∧ NavEffect.logSettleTimeout msg
        ∈ (clickAction xpath (.ok ()) forced pageEventAt (.error msg)).1
    ∧ (clickAction xpath (.error (.timeout "first click timed out")) (.ok ())
        pageEventAt (.error msg)).2 = .ok () := by
  have hnav : ∀ s : Except String Unit, (handlePossiblePageNavigation pageEventAt s).2 = .ok ()
      ∧ NavEffect.logSettleTimeout msg
          ∈ (handlePossiblePageNavigation pageEventAt (.error msg)).1 := by
    intro s
    rcases pageEventAt with _ | ⟨t, u⟩
    · cases s <;> simp [handlePossiblePageNavigation, raceNewPage, settleLog]
    · by_cases ht : t < 1500 <;> cases s <;>
        simp [handlePossiblePageNavigation, raceNewPage, settleLog, ht]
  refine ⟨(hnav settle).1, ?_, ?_, ?_⟩
  · simpa [clickAction, clickElement, clickWithRetry] using (hnav (.error msg)).1
  · simpa [clickAction, clickElement, clickWithRetry] using (hnav (.error msg)).2
  · simpa [clickAction, clickElement, clickWithRetry] using (hnav (.error msg)).1

/-- C5 (counterexample): `parsePercent` does not strip only a *trailing* `%` —
the source's `replace("%", "")` removes the first occurrence anywhere, so on
`"%50"` the code yields 50 while the claimed trailing-only stripping yields
0. -/
theorem parsePercent_not_trailing_only :
    parsePercent "%50" = 50 ∧ parsePercentSpec "%50" = 0
    ∧ parsePercent "%50" ≠ parsePercentSpec "%50" := by
  have h1 : parsePercent "%50" = 50 := by
    have h : parsePercent "%50"
        = jsMax 0 (jsMin (floatVal ⟨false, 50, 0, 0, false, 0⟩) 100) := rfl
    rw [h]; norm_num [floatVal, jsMin, jsMax]
  have h2 : parsePercentSpec "%50" = 0 := rfl
  refine ⟨h1, h2, ?_⟩
  rw [h1, h2]; norm_num

/-- C5 (amended): `parsePercent` strips surrounding whitespace and the first
`%` (wherever it occurs), parses the remainder as a floating-point number,
returns 0 for non-numeric input, and clamps into [0, 100]; in particular the
four quoted example values hold. -/
theorem parsePercent_clamped_examples :
    (∀ s : String, 0 ≤ parsePercent s ∧ parsePercent s ≤ 100)
    ∧ parsePercent "150%" = 100 ∧ parsePercent "-10" = 0
    ∧ parsePercent "abc" = 0 ∧ parsePercent " 37.5% " = 37.5 := by
  have clamp : ∀ q : ℚ, 0 ≤ jsMax 0 (jsMin q 100) ∧ jsMax 0 (jsMin q 100) ≤ 100 := by
    intro q
    unfold jsMax jsMin
    split_ifs <;> constructor <;> linarith
  refine ⟨fun s => ?_, ?_, ?_, ?_, ?_⟩
  · have h : parsePercent s
        = match parseFloat (replaceFirstPercent (jsTrim s)) with
          | none => 0
          | some num => jsMax 0 (jsMin num 100) := rfl
    rw [h]
    cases parseFloat (replaceFirstPercent (jsTrim s)) with
    | none => norm_num
    | some q => exact clamp q
  · have h : parsePercent "150%"
        = jsMax 0 (jsMin (floatVal ⟨false, 150, 0, 0, false, 0⟩) 100) := rfl
    rw [h]; norm_num [floatVal, jsMin, jsMax]
  · have h : parsePercent "-10"
        = jsMax 0 (jsMin (floatVal ⟨true, 10, 0, 0, false, 0⟩) 100) := rfl
    rw [h]; norm_num [floatVal, jsMin, jsMax]
  · rfl
  · have h : parsePercent " 37.5% "
        = jsMax 0 (jsMin (floatVal ⟨false, 37, 5, 1, false, 0⟩) 100) := rfl
    rw [h]; norm_num [floatVal, jsMin, jsMax]

/-- C6: percentage scroll targets `(bodyScrollHeight − viewportHeight) × ratio`
on the root document element and `(scrollHeight − clientHeight) × ratio` on any
other element, with `ratio` the parsed percentage over 100; only the vertical
offset changes, the horizontal offset (`window.scrollX` resp.
`element.scrollLeft`) is passed through unchanged. -/
theorem scrollElementToPercentage_formula (el : Elem) (env : PageEnv)
    (args : List String) :
    (asciiToLower el.tagName = "html" →
      scrollElementToPercentage (some el) env args
        = .ok ([], some (.windowScrollTo
            ((env.bodyScrollHeight - env.innerHeight) * (parsePercent (args.headD "0%") / 100))
            env.scrollX)))
    ∧ (asciiToLower el.tagName ≠ "html" →
      scrollElementToPercentage (some el) env args
        = .ok ([], some (.elementScrollTo
            ((el.scrollHeight - el.clientHeight) * (parsePercent (args.headD "0%") / 100))
            el.scrollLeft))) := by
  constructor <;> intro h <;> simp [scrollElementToPercentage, h]

/-- Witness for C6: a `50%` scroll on a concrete root element and on a
concrete `div`. -/
theorem scrollElementToPercentage_formula_witness :
    scrollElementToPercentage (some ⟨"HTML", 3000, 800, 0, 800⟩)
        ⟨3000, 800, 7, 800⟩ ["50%"]
      = .ok ([], some (.windowScrollTo ((3000 - 800) * (parsePercent "50%" / 100)) 7))
    ∧ scrollElementToPercentage (some ⟨"DIV", 600, 200, 3, 200⟩)
        ⟨3000, 800, 7, 800⟩ ["50%"]
      = .ok ([], some (.elementScrollTo ((600 - 200) * (parsePercent "50%" / 100)) 3)) :=
  ⟨(scrollElementToPercentage_formula ⟨"HTML", 3000, 800, 0, 800⟩
      ⟨3000, 800, 7, 800⟩ ["50%"]).1 (by decide),
   (scrollElementToPercentage_formula ⟨"DIV", 600, 200, 3, 200⟩
      ⟨3000, 800, 7, 800⟩ ["50%"]).2 (by decide)⟩

/-- C7: the chunk-scroll delta magnitude is one visual-viewport height on the
root `<html>`/`<body>` and the element's bounding height otherwise; `nextChunk`
uses the positive delta and `prevChunk` the same magnitude negated (positive
whenever the corresponding height is). -/
theorem chunk_scroll_delta (el : Elem) (env : PageEnv) :
    (asciiToLower el.tagName = "html" ∨ asciiToLower el.tagName = "body" →
      scrollToNextChunk (some el) env (.ok ())
        = .ok ([], some (.windowScrollBy env.visualViewportHeight 0))
      ∧ scrollToPreviousChunk (some el) env (.ok ())
        = .ok ([], some (.windowScrollBy (-env.visualViewportHeight) 0)))
    ∧ (¬(asciiToLower el.tagName = "html" ∨ asciiToLower el.tagName = "body") →
      scrollToNextChunk (some el) env (.ok ())
        = .ok ([], some (.elementScrollBy el.boundingHeight 0))
      ∧ scrollToPreviousChunk (some el) env (.ok ())
        = .ok ([], some (.elementScrollBy (-el.boundingHeight) 0))) := by
  constructor <;> intro h <;>
    simp [scrollToNextChunk, scrollToPreviousChunk, h]

/-- Witness for C7: chunk scroll on a concrete `<body>` (root) and a concrete
`section` element. -/
theorem chunk_scroll_delta_witness :
    scrollToNextChunk (some ⟨"BODY", 3000, 800, 0, 900⟩) ⟨3000, 800, 0, 760⟩ (.ok ())
      = .ok ([], some (.windowScrollBy 760 0))
    ∧ scrollToPreviousChunk (some ⟨"SECTION", 600, 200, 0, 480⟩) ⟨3000, 800, 0, 760⟩ (.ok ())
      = .ok ([], some (.elementScrollBy (-480) 0)) :=
  ⟨((chunk_scroll_delta ⟨"BODY", 3000, 800, 0, 900⟩ ⟨3000, 800, 0, 760⟩).1
      (by right; decide)).1,
   ((chunk_scroll_delta ⟨"SECTION", 600, 200, 0, 480⟩ ⟨3000, 800, 0, 760⟩).2
      (by decide)).2⟩

/-- C8: for the whole scroll family, an unresolved path identifier is a logged
warning and a successful no-op (no scroll command, no error), whatever the
arguments or the scroll-end wait outcome. -/
theorem scroll_family_not_found_noop (env : PageEnv) (args : List String)
    (w : Except String Unit) :
    scrollElementToPercentage none env args
      = .ok (["Could not locate element to scroll on."], none)
    ∧ scrollToNextChunk none env w
      = .ok (["Could not locate element to scroll by its height."], none)
    ∧ scrollToPreviousChunk none env w
      = .ok (["Could not locate element to scroll by its height."], none) :=
  ⟨rfl, rfl, rfl⟩

/-- C9: text input clears the element, clicks it, then emits one keystroke per
character in order, each with delay `rand i * 50 + 25 ∈ [25, 75]` whenever
`rand i ∈ [0, 1)`; for `"ab"` exactly the two keystrokes `a` then `b` are
emitted after the clear and the focusing click. -/
theorem fillOrType_trace (rand : Nat → ℚ) (h : ∀ i, 0 ≤ rand i ∧ rand i < 1) :
    fillOrType (some "ab") rand
      = [.clearValue, .clickFocus,
         .keystroke 'a' (rand 0 * 50 + 25), .keystroke 'b' (rand 1 * 50 + 25)]
    ∧ (∀ i, 25 ≤ rand i * 50 + 25 ∧ rand i * 50 + 25 ≤ 75)
    ∧ (∀ s : Option String, (fillOrType s rand).take 2 = [.clearValue, .clickFocus]
        ∧ (fillOrType s rand).length = 2 + (s.getD "").length) := by
  refine ⟨rfl, fun i => ?_, fun s => ⟨rfl, ?_⟩⟩
  · rcases h i with ⟨h0, h1⟩
    constructor <;> nlinarith
  · simp [fillOrType, List.enum_length]
    omega

/-- Witness for C9 with the constant draw 1/2: two keystrokes, delay 50. -/
theorem fillOrType_trace_witness :
    fillOrType (some "ab") (fun _ => (1 : ℚ) / 2)
      = [.clearValue, .clickFocus, .keystroke 'a' ((1 : ℚ) / 2 * 50 + 25),
         .keystroke 'b' ((1 : ℚ) / 2 * 50 + 25)] :=
  (fillOrType_trace (fun _ => (1 : ℚ) / 2) (fun _ => by norm_num)).1

/-- C10: only tag name `html` gets the root-document treatment in percentage
scroll — a resolved `<body>` is scrolled via its own
`scrollHeight − clientHeight` range through `element.scrollTo` — whereas chunk
scroll treats `<body>` as root and scrolls the window by one viewport
height. -/
theorem percentage_scroll_body_not_root (el : Elem) (env : PageEnv)
    (args : List String) (h : asciiToLower el.tagName = "body") :
    scrollElementToPercentage (some el) env args
      = .ok ([], some (.elementScrollTo
          ((el.scrollHeight - el.clientHeight) * (parsePercent (args.headD "0%") / 100))
          el.scrollLeft))
    ∧ scrollToNextChunk (some el) env (.ok ())
      = .ok ([], some (.windowScrollBy env.visualViewportHeight 0)) := by
  have hne : asciiToLower el.tagName ≠ "html" := by
    rw [h]; decide
  constructor
  · simp [scrollElementToPercentage, hne]
  · simp [scrollToNextChunk, h]

/-- Witness for C10: a concrete `<body>` element. -/
theorem percentage_scroll_body_not_root_witness :
    scrollElementToPercentage (some ⟨"BODY", 2400, 800, 5, 790⟩)
        ⟨2400, 800, 5, 760⟩ ["25%"]
      = .ok ([], some (.elementScrollTo ((2400 - 800) * (parsePercent "25%" / 100)) 5))
    ∧ scrollToNextChunk (some ⟨"BODY", 2400, 800, 5, 790⟩) ⟨2400, 800, 5, 760⟩ (.ok ())
      = .ok ([], some (.windowScrollBy 760 0)) :=
  percentage_scroll_body_not_root ⟨"BODY", 2400, 800, 5, 790⟩ ⟨2400, 800, 5, 760⟩
    ["25%"] (by decide)

end Stagehand
